import Mathlib

/-!
Verification of the natural-language specification of the `deb_assistant`
database question-answering service against its source
(`src/database_qa.py`, `src/app.py`).

The service is a three-step pipeline (generate SQL, execute SQL, synthesize
an answer) orchestrated by LangGraph, with a direct mode and an
approval-gated mode, exposed through FastAPI endpoints.  The two external
effectful dependencies — the language model and the SQL database — are
modelled as oracle structures whose calls return `Except String _`
(a Python exception becomes `Except.error`).  Every pipeline run also
returns a trace of the external calls it made, so that temporal claims
("this step is never invoked", "the checkpoint key used is …") are
expressible.
-/

namespace DebAssistant

/-- The LangGraph pipeline state (`State` TypedDict, database_qa.py
lines 14–18): question, query, result, answer, all text. -/
structure State where
  question : String
  query : String
  result : String
  answer : String
deriving Repr, DecidableEq

/-- A partial state update returned by a graph node: a Python dict holding a
subset of the `State` keys (`none` = key absent from the returned dict).
LangGraph merges such an update into the running state. -/
structure Update where
  question : Option String := none
  query : Option String := none
  result : Option String := none
  answer : Option String := none
deriving Repr, DecidableEq

/-- LangGraph's state merge: each key present in the update overwrites the
corresponding state field; absent keys leave the field unchanged. -/
def applyUpdate (s : State) (u : Update) : State :=
  { question := u.question.getD s.question
    query := u.query.getD s.query
    result := u.result.getD s.result
    answer := u.answer.getD s.answer }

/-- Model of the `SQLDatabase` handle plus the `QuerySQLDatabaseTool` built
from it (database_qa.py lines 27, 140–143, 226–251).  A raised Python
exception is `Except.error` carrying `str(e)`.  `allTableInfo` is the text
`db.get_table_info()` splices into the query-generation prompt
(line 132); it is modelled as an always-available string since no claim
concerns its failure. -/
structure Db where
  dialect : String
  allTableInfo : String
  run : String → Except String String
  getUsableTableNames : Unit → Except String (List String)
  getTableInfo : List String → Except String String
  executeTool : String → Except String String

/-- Model of the chat model (database_qa.py lines 57–75): `structuredQuery`
is `llm.with_structured_output(QueryOutput).invoke(prompt)["query"]`
(line 136–138), `invoke` is `llm.invoke(prompt).content` (line 154–155). -/
structure Llm where
  structuredQuery : String → Except String String
  invoke : String → Except String String

/-- Trace of the externally observable calls a pipeline run performs. -/
inductive Event where
  | llmGenerateQuery (prompt : String)
  | dbExecute (sql : String)
  | llmGenerateAnswer (prompt : String)
  | saveCheckpoint (threadId : String)
deriving Repr, DecidableEq

/-- The query-generation prompt (database_qa.py lines 80–101 and 129–134):
the system template with `dialect`, `top_k`, `table_info` substituted,
followed by the user message `Question: {input}` with the question
substituted.  Whitespace of the Python triple-quoted string is
normalised; the claims depend only on which inputs the prompt is built
from. -/
def queryGenPrompt (dialect : String) (topK : Nat) (tableInfo : String)
    (question : String) : String :=
  "Given an input question, create a syntactically correct " ++ dialect ++
  " query to run to help find the answer. Unless the user specifies in his " ++
  "question a specific number of examples they wish to obtain, always limit " ++
  "your query to at most " ++ toString topK ++ " results. You can order the " ++
  "results by a relevant column to return the most interesting examples in " ++
  "the database.\n\nNever query for all the columns from a specific table, " ++
  "only ask for a the few relevant columns given the question.\n\nPay " ++
  "attention to use only the column names that you can see in the schema " ++
  "description. Be careful to not query for columns that do not exist. Also, " ++
  "pay attention to which column is in which table.\n\nOnly use the " ++
  "following tables:\n" ++ tableInfo ++
  "\nQuestion: " ++ question

/-- `_write_query` node (database_qa.py lines 125–138): builds the prompt,
calls the structured-output model, and returns the dict
`\x7b"query": result["query"]\x7d`. -/
def writeQueryStep (db : Db) (llm : Llm) (topK : Nat) (s : State) :
    List Event × Except String Update :=
  let p := queryGenPrompt db.dialect topK db.allTableInfo s.question
  match llm.structuredQuery p with
  | .ok q => ([.llmGenerateQuery p], .ok { query := some q })
  | .error e => ([.llmGenerateQuery p], .error e)

/-- `_execute_query` node (database_qa.py lines 140–143): runs the query
through `QuerySQLDatabaseTool` and returns `\x7b"result": …\x7d`. -/
def executeQueryStep (db : Db) (s : State) :
    List Event × Except String Update :=
  match db.executeTool s.query with
  | .ok r => ([.dbExecute s.query], .ok { result := some r })
  | .error e => ([.dbExecute s.query], .error e)

/-- The answer-synthesis prompt (database_qa.py lines 147–153), exactly the
f-string the source builds from the state's question, query and result. -/
def answerPrompt (s : State) : String :=
  "Given the following user question, corresponding SQL query, " ++
  "and SQL result, answer the user question.\n\n" ++
  "Question: " ++ s.question ++ "\n" ++
  "SQL Query: " ++ s.query ++ "\n" ++
  "SQL Result: " ++ s.result

/-- `_generate_answer` node (database_qa.py lines 145–155): builds the
answer prompt from the state and returns `\x7b"answer": …\x7d`. -/
def generateAnswerStep (llm : Llm) (s : State) :
    List Event × Except String Update :=
  let p := answerPrompt s
  match llm.invoke p with
  | .ok a => ([.llmGenerateAnswer p], .ok { answer := some a })
  | .error e => ([.llmGenerateAnswer p], .error e)

/-- The dict `_ask_direct` / `_ask_with_approval` build and return
(database_qa.py lines 179, 197): query, result, answer, initially all
empty strings. -/
structure AskResult where
  query : String
  result : String
  answer : String
deriving Repr, DecidableEq

/-- `_ask_direct` (database_qa.py lines 177–192): streams the basic graph
(`_write_query → _execute_query → _generate_answer`, lines 104–110) over
the initial state `\x7b"question": question\x7d` and copies each node's
update into the result dict; a step failure propagates as an exception. -/
def askDirect (db : Db) (llm : Llm) (topK : Nat) (question : String) :
    List Event × Except String AskResult :=
  let s0 : State := { question := question, query := "", result := "", answer := "" }
  match writeQueryStep db llm topK s0 with
  | (ev1, .error e) => (ev1, .error e)
  | (ev1, .ok u1) =>
    let s1 := applyUpdate s0 u1
    match executeQueryStep db s1 with
    | (ev2, .error e) => (ev1 ++ ev2, .error e)
    | (ev2, .ok u2) =>
      let s2 := applyUpdate s1 u2
      match generateAnswerStep llm s2 with
      | (ev3, .error e) => (ev1 ++ ev2 ++ ev3, .error e)
      | (ev3, .ok u3) =>
        (ev1 ++ ev2 ++ ev3,
          .ok { query := u1.query.getD ""
                result := u2.result.getD ""
                answer := u3.answer.getD "" })

/-- The checkpoint thread identifier (database_qa.py line 196):
`str(hash(question))`.  `pyHash` is the process's (salted but
process-fixed) Python string hash. -/
def threadIdFor (pyHash : String → Int) (question : String) : String :=
  toString (pyHash question)

/-- The fixed placeholder answer returned when auto-approval is disabled
(database_qa.py line 222). -/
def placeholderAnswer : String :=
  "Query generated but requires human approval to execute."

/-- `_ask_with_approval` (database_qa.py lines 194–224): phase 1 streams
the approval graph (compiled with a `MemorySaver` checkpointer and
`interrupt_before=["_execute_query"]`, lines 112–117) until the
`_write_query` update, checkpointing the state under the thread id
derived from the question; if `AUTO_APPROVE_QUERIES` is enabled, phase 2
resumes the checkpoint and runs `_execute_query` and `_generate_answer`;
otherwise the placeholder answer is attached and nothing is executed. -/
def askWithApproval (pyHash : String → Int) (db : Db) (llm : Llm)
    (topK : Nat) (question : String) (autoApprove : Bool) :
    List Event × Except String AskResult :=
  let tid := threadIdFor pyHash question
  let s0 : State := { question := question, query := "", result := "", answer := "" }
  match writeQueryStep db llm topK s0 with
  | (ev1, .error e) => (ev1, .error e)
  | (ev1, .ok u1) =>
    let s1 := applyUpdate s0 u1
    let evC := [Event.saveCheckpoint tid]
    if autoApprove then
      match executeQueryStep db s1 with
      | (ev2, .error e) => (ev1 ++ evC ++ ev2, .error e)
      | (ev2, .ok u2) =>
        let s2 := applyUpdate s1 u2
        match generateAnswerStep llm s2 with
        | (ev3, .error e) => (ev1 ++ evC ++ ev2 ++ ev3, .error e)
        | (ev3, .ok u3) =>
          (ev1 ++ evC ++ ev2 ++ ev3,
            .ok { query := u1.query.getD ""
                  result := u2.result.getD ""
                  answer := u3.answer.getD "" })
    else
      (ev1 ++ evC,
        .ok { query := u1.query.getD "", result := "", answer := placeholderAnswer })

/-- `DatabaseQA.ask_question` (database_qa.py lines 157–175) with the
environment defaults already resolved into the two booleans
(`HUMAN_INTERVENTION`, `AUTO_APPROVE_QUERIES`). -/
def ask_question (pyHash : String → Int) (db : Db) (llm : Llm) (topK : Nat)
    (question : String) (useHumanApproval autoApprove : Bool) :
    List Event × Except String AskResult :=
  if useHumanApproval then askWithApproval pyHash db llm topK question autoApprove
  else askDirect db llm topK question

/-- `QuestionResponse` model (app.py lines 204–209). -/
structure QuestionResponse where
  question : String
  query : String
  result : String
  answer : String
  status : String
deriving Repr, DecidableEq

/-- The `POST /ask` handler body (app.py lines 234–257), after pipeline
initialisation: on success wraps the pipeline dict in a
`QuestionResponse` with `status="success"`; any exception becomes an
`HTTPException(500, str(e))`, modelled as `Except.error (500, e)`. -/
def ask_question_endpoint (pyHash : String → Int) (db : Db) (llm : Llm)
    (topK : Nat) (question : String) (useHumanApproval autoApprove : Bool) :
    Except (Nat × String) QuestionResponse :=
  match (ask_question pyHash db llm topK question useHumanApproval autoApprove).2 with
  | .ok r => .ok { question := question, query := r.query, result := r.result
                   answer := r.answer, status := "success" }
  | .error e => .error (500, e)

/-- `DatabaseQA.get_available_tables` (database_qa.py lines 226–228). -/
def get_available_tables (db : Db) : Except String (List String) :=
  db.getUsableTableNames ()

/-- `HealthResponse` model (app.py lines 211–214). -/
structure HealthResponse where
  status : String
  database_connected : Bool
  available_tables : List String
deriving Repr, DecidableEq

/-- The `GET /health` handler (app.py lines 216–232): healthy with the
table list on success, unhealthy with an empty list when the adapter
throws. -/
def health_check (db : Db) : HealthResponse :=
  match get_available_tables db with
  | .ok tables =>
      { status := "healthy", database_connected := true, available_tables := tables }
  | .error _ =>
      { status := "unhealthy", database_connected := false, available_tables := [] }

/-- `DatabaseQA.get_table_schema` (database_qa.py lines 230–235): wraps an
underlying `get_table_info` failure in a `ValueError` with a descriptive
message. -/
def get_table_schema (db : Db) (tableName : String) : Except String String :=
  match db.getTableInfo [tableName] with
  | .ok s => .ok s
  | .error e =>
      .error ("Error getting schema for table " ++ tableName ++ ": " ++ e)

/-- The `GET /schema/\x7btable_name\x7d` handler (app.py lines 272–283):
`\x7btable, schema\x7d` on success, `HTTPException(404, …)` when the
lookup throws. -/
def get_table_schema_endpoint (db : Db) (tableName : String) :
    Except (Nat × String) (String × String) :=
  match get_table_schema db tableName with
  | .ok s => .ok (tableName, s)
  | .error e =>
      .error (404, "Table " ++ tableName ++ " not found or error: " ++ e)

/-- Result of `DatabaseQA.test_connection` (database_qa.py lines 237–251). -/
inductive ConnectionStatus where
  | connected (dialect version : String) (tables : List String)
  | failed (error : String)
deriving Repr, DecidableEq

/-- `DatabaseQA.test_connection` (database_qa.py lines 237–251): runs
`SELECT version();` and lists the tables inside one try block; any
exception is caught and reported as `connected=False` with `str(e)`. -/
def test_connection (db : Db) : ConnectionStatus :=
  match db.run "SELECT version();" with
  | .error e => .failed e
  | .ok version =>
    match get_available_tables db with
    | .error e => .failed e
    | .ok tables => .connected db.dialect version tables

/-- `big` contains `small` as a contiguous substring (stated on the
underlying character lists). -/
def strContains (big small : String) : Prop :=
  ∃ s t, big.data = s ++ small.data ++ t

/-- `true` unless the event is a database execution. -/
def isNotDbExecute : Event → Bool
  | .dbExecute _ => false
  | _ => true

/-- `true` when the event, if it is a checkpoint save, uses `tid`. -/
def checkpointIdIs (tid : String) : Event → Bool
  | .saveCheckpoint t => t == tid
  | _ => true

/-! ### Concrete fixtures used by witness theorems -/

/-- A database stub whose every call succeeds. -/
def stubDb : Db :=
  { dialect := "postgresql"
    allTableInfo := "CREATE TABLE orders (id INTEGER)"
    run := fun _ => .ok "PostgreSQL 16.0"
    getUsableTableNames := fun _ => .ok ["orders"]
    getTableInfo := fun _ => .ok "CREATE TABLE orders (id INTEGER)"
    executeTool := fun _ => .ok "[(42,)]" }

/-- A database stub whose every call raises. -/
def failDb : Db :=
  { dialect := "postgresql"
    allTableInfo := ""
    run := fun _ => .error "connection refused"
    getUsableTableNames := fun _ => .error "connection refused"
    getTableInfo := fun _ => .error "connection refused"
    executeTool := fun _ => .error "connection refused" }

/-- A database stub that knows only the table `"orders"`: schema lookup for
anything else raises, as `SQLDatabase.get_table_info` does for unknown
table names. -/
def oneTableDb : Db :=
  { dialect := "postgresql"
    allTableInfo := "CREATE TABLE orders (id INTEGER)"
    run := fun _ => .ok "PostgreSQL 16.0"
    getUsableTableNames := fun _ => .ok ["orders"]
    getTableInfo := fun _ => .error "table_names not found in database"
    executeTool := fun _ => .ok "[(42,)]" }

/-- A deterministic model stub. -/
def stubLlm : Llm :=
  { structuredQuery := fun _ => .ok "SELECT count(*) FROM orders;"
    invoke := fun _ => .ok "There are 42 orders." }

/-- A deterministic stand-in for the process's Python string hash. -/
def stubHash : String → Int := fun s => Int.ofNat s.length

/-- The status code of an HTTP-level outcome, `none` on success. -/
def httpStatusOf {α : Type} : Except (Nat × String) α → Option Nat
  | .error (code, _) => some code
  | .ok _ => none

/-- A concrete initial pipeline state. -/
def stubState : State :=
  { question := "How many orders are there?", query := "", result := "", answer := "" }

/-- The update the `_write_query` node produces for `stubState` under the
stub model. -/
def stubUpdate : Update := { query := some "SELECT count(*) FROM orders;" }

/-! ## Theorems -/

/-- Characterisation of `_ask_direct`: the returned dict is `ok` exactly when
all three external calls succeed, and then carries exactly their outputs;
the first failing call's exception propagates. -/
theorem askDirect_snd_eq (db : Db) (llm : Llm) (topK : Nat) (question : String) :
    (askDirect db llm topK question).2 =
      match llm.structuredQuery (queryGenPrompt db.dialect topK db.allTableInfo question) with
      | .error e => .error e
      | .ok sql =>
        match db.executeTool sql with
        | .error e => .error e
        | .ok res =>
          match llm.invoke (answerPrompt { question := question, query := sql, result := res, answer := "" }) with
          | .error e => .error e
          | .ok ans => .ok { query := sql, result := res, answer := ans } := by
  unfold askDirect
  rcases h1 : llm.structuredQuery (queryGenPrompt db.dialect topK db.allTableInfo question)
    with e | sql
  · simp only [writeQueryStep, h1]
  · simp only [writeQueryStep, h1]
    rcases h2 : db.executeTool sql with e | res
    · simp only [executeQueryStep, applyUpdate, Option.getD, h2]
    · simp only [executeQueryStep, applyUpdate, Option.getD, h2]
      rcases h3 : llm.invoke (answerPrompt { question := question, query := sql, result := res, answer := "" }) with e | ans
      · simp only [generateAnswerStep, applyUpdate, Option.getD, h3]
      · simp only [generateAnswerStep, applyUpdate, Option.getD, h3]

/-- C1: a successful direct-mode call to the `/ask` handler returns a
response whose query, result and answer fields are all populated
(non-empty, given that each external step returns non-empty output on
success, as the deterministic stubs do), and whenever any of the three
pipeline steps fails the handler raises `HTTPException(500, str(e))`
instead of returning a partially filled state. -/
theorem direct_mode_all_or_raise (pyHash : String → Int) (db : Db) (llm : Llm)
    (topK : Nat) (question : String) (autoApprove : Bool)
    (hGen : ∀ p r, llm.structuredQuery p = .ok r → r ≠ "")
    (hExec : ∀ q r, db.executeTool q = .ok r → r ≠ "")
    (hAns : ∀ p r, llm.invoke p = .ok r → r ≠ "") :
    (∀ resp, ask_question_endpoint pyHash db llm topK question false autoApprove = .ok resp →
        resp.query ≠ "" ∧ resp.result ≠ "" ∧ resp.answer ≠ "") ∧
    (∀ e, llm.structuredQuery (queryGenPrompt db.dialect topK db.allTableInfo question) = .error e →
        ask_question_endpoint pyHash db llm topK question false autoApprove = .error (500, e)) ∧
    (∀ sql e, llm.structuredQuery (queryGenPrompt db.dialect topK db.allTableInfo question) = .ok sql →
        db.executeTool sql = .error e →
        ask_question_endpoint pyHash db llm topK question false autoApprove = .error (500, e)) ∧
    (∀ sql res e, llm.structuredQuery (queryGenPrompt db.dialect topK db.allTableInfo question) = .ok sql →
        db.executeTool sql = .ok res →
        llm.invoke (answerPrompt { question := question, query := sql, result := res, answer := "" }) = .error e →
        ask_question_endpoint pyHash db llm topK question false autoApprove = .error (500, e)) := by
  refine ⟨?_, ?_, ?_, ?_⟩
  · intro resp hresp
    rcases h1 : llm.structuredQuery (queryGenPrompt db.dialect topK db.allTableInfo question)
      with e | sql
    · simp [ask_question_endpoint, ask_question, askDirect_snd_eq, h1] at hresp
    · rcases h2 : db.executeTool sql with e | res
      · simp [ask_question_endpoint, ask_question, askDirect_snd_eq, h1, h2] at hresp
      · rcases h3 : llm.invoke (answerPrompt { question := question, query := sql, result := res, answer := "" }) with e | ans
        · simp [ask_question_endpoint, ask_question, askDirect_snd_eq, h1, h2, h3] at hresp
        · simp [ask_question_endpoint, ask_question, askDirect_snd_eq, h1, h2, h3] at hresp
          subst hresp
          exact ⟨hGen _ _ h1, hExec _ _ h2, hAns _ _ h3⟩
  · intro e h1
    simp [ask_question_endpoint, ask_question, askDirect_snd_eq, h1]
  · intro sql e h1 h2
    simp [ask_question_endpoint, ask_question, askDirect_snd_eq, h1, h2]
  · intro sql res e h1 h2 h3
    simp [ask_question_endpoint, ask_question, askDirect_snd_eq, h1, h2, h3]

/-- Witness for C1: with the deterministic stubs the direct-mode handler
succeeds and all three fields are non-empty. -/
theorem direct_mode_all_or_raise_witness :
    ask_question_endpoint stubHash stubDb stubLlm 10 "How many orders are there?" false true =
      Except.ok { question := "How many orders are there?"
                  query := "SELECT count(*) FROM orders;"
                  result := "[(42,)]"
                  answer := "There are 42 orders."
                  status := "success" } ∧
    "SELECT count(*) FROM orders;" ≠ "" ∧ "[(42,)]" ≠ "" ∧ "There are 42 orders." ≠ "" :=
  ⟨rfl,
    (direct_mode_all_or_raise stubHash stubDb stubLlm 10 "How many orders are there?" true
        (fun p r h => by injection h with h; subst h; decide)
        (fun q r h => by injection h with h; subst h; decide)
        (fun p r h => by injection h with h; subst h; decide)).1
      _ rfl⟩

/-- C2: with deterministic model and database stubs, approval mode with
auto-approve enabled returns exactly the same dict (query, result,
answer) as direct mode for the same question. -/
theorem approval_auto_eq_direct (pyHash : String → Int) (db : Db) (llm : Llm)
    (topK : Nat) (question : String) :
    (askWithApproval pyHash db llm topK question true).2 =
      (askDirect db llm topK question).2 := by
  unfold askWithApproval askDirect
  rcases h1 : llm.structuredQuery (queryGenPrompt db.dialect topK db.allTableInfo question)
    with e | sql
  · simp only [writeQueryStep, h1]
  · simp only [writeQueryStep, h1]
    simp only [executeQueryStep, applyUpdate, Option.getD]
    rcases h2 : db.executeTool sql with e | res
    · simp only [h2]
      rfl
    · simp only [h2]
      rcases h3 : llm.invoke (answerPrompt { question := question, query := sql, result := res, answer := "" }) with e | ans
      · simp only [generateAnswerStep, h3, applyUpdate, Option.getD]
        rfl
      · simp only [generateAnswerStep, h3, applyUpdate, Option.getD]
        rfl

/-- C3: approval mode with auto-approve disabled returns the generated SQL
in the query field, the fixed placeholder text as the answer, and an
empty result field. -/
theorem approval_no_auto_placeholder (pyHash : String → Int) (db : Db) (llm : Llm)
    (topK : Nat) (question sql : String)
    (h : llm.structuredQuery (queryGenPrompt db.dialect topK db.allTableInfo question) = .ok sql) :
    (askWithApproval pyHash db llm topK question false).2 =
      .ok { query := sql, result := "", answer := placeholderAnswer } := by
  unfold askWithApproval
  simp only [writeQueryStep, h]
  rfl

/-- Witness for C3: with the deterministic stubs, approval mode without
auto-approve returns the generated query, an empty result and the
placeholder answer. -/
theorem approval_no_auto_placeholder_witness :
    stubLlm.structuredQuery
        (queryGenPrompt stubDb.dialect 10 stubDb.allTableInfo "How many orders are there?") =
      Except.ok "SELECT count(*) FROM orders;" ∧
    (askWithApproval stubHash stubDb stubLlm 10 "How many orders are there?" false).2 =
      Except.ok { query := "SELECT count(*) FROM orders;", result := ""
                  answer := placeholderAnswer } :=
  ⟨rfl, approval_no_auto_placeholder stubHash stubDb stubLlm 10 _ _ rfl⟩

/-- C4: the `GET /health` handler is a total function of the adapter's
behaviour; when `get_available_tables` raises any exception it returns
`status="unhealthy"`, `database_connected=false` and an empty table
list, and on success it returns `status="healthy"` with the table
list. -/
theorem health_check_never_raises (db : Db) :
    (∀ e, db.getUsableTableNames () = .error e →
        health_check db =
          { status := "unhealthy", database_connected := false, available_tables := [] }) ∧
    (∀ ts, db.getUsableTableNames () = .ok ts →
        health_check db =
          { status := "healthy", database_connected := true, available_tables := ts }) := by
  constructor <;> intro x h <;> simp [health_check, get_available_tables, h]

/-- Witness for C4: a database whose calls all raise yields the degraded
health response. -/
theorem health_check_never_raises_witness :
    failDb.getUsableTableNames () = Except.error "connection refused" ∧
    health_check failDb =
      { status := "unhealthy", database_connected := false, available_tables := [] } :=
  ⟨rfl, (health_check_never_raises failDb).1 "connection refused" rfl⟩

/-- C5: the checkpoint thread identifier is `str(hash(question))`, a
deterministic function of the question text alone within one process:
equal question text yields equal checkpoint keys, and every checkpoint
saved by an approval-mode call uses exactly that key — no
per-conversation uniqueness exists anywhere in the key. -/
theorem checkpoint_key_question_only (pyHash : String → Int) (db : Db) (llm : Llm)
    (topK : Nat) (q q' : String) (b : Bool) (h : q = q') :
    threadIdFor pyHash q = threadIdFor pyHash q' ∧
    ((askWithApproval pyHash db llm topK q b).1.all
        (checkpointIdIs (threadIdFor pyHash q'))) = true := by
  subst h
  refine ⟨rfl, ?_⟩
  unfold askWithApproval
  rcases h1 : llm.structuredQuery (queryGenPrompt db.dialect topK db.allTableInfo q)
    with e | sql
  · simp [writeQueryStep, h1, checkpointIdIs]
  · cases b
    · simp [writeQueryStep, h1, checkpointIdIs]
    · rcases h2 : db.executeTool sql with e | res
      · simp [writeQueryStep, executeQueryStep, applyUpdate, h1, h2, checkpointIdIs]
      · rcases h3 : llm.invoke (answerPrompt { question := q, query := sql, result := res, answer := "" }) with e | ans <;>
          simp [writeQueryStep, executeQueryStep, generateAnswerStep, applyUpdate,
            h1, h2, h3, checkpointIdIs]

/-- Witness for C5: two approval-mode calls with the identical question use
the identical checkpoint key. -/
theorem checkpoint_key_question_only_witness :
    threadIdFor stubHash "How many orders are there?" =
      threadIdFor stubHash "How many orders are there?" ∧
    ((askWithApproval stubHash stubDb stubLlm 10 "How many orders are there?" true).1.all
        (checkpointIdIs (threadIdFor stubHash "How many orders are there?"))) = true :=
  checkpoint_key_question_only stubHash stubDb stubLlm 10 _ _ true rfl

/-- C6: the `GET /schema/\x7bt\x7d` handler answers 404 whenever the
underlying schema lookup raises — in particular (via the hypothesis
`hAbsent`, which models `SQLDatabase.get_table_info` raising
`ValueError` for table names missing from `get_usable_table_names`)
whenever `t` is absent from the list `GET /tables` reports — and on
success returns the pair `(table, schema)`. -/
theorem schema_endpoint_unknown_404 (db : Db) (t : String)
    (hAbsent : ∀ ts, db.getUsableTableNames () = .ok ts → t ∉ ts →
        ∃ e, db.getTableInfo [t] = .error e) :
    ((∃ e, db.getTableInfo [t] = .error e) ∨
        (∃ ts, db.getUsableTableNames () = .ok ts ∧ t ∉ ts) →
      httpStatusOf (get_table_schema_endpoint db t) = some 404) ∧
    (∀ s, db.getTableInfo [t] = .ok s →
      get_table_schema_endpoint db t = .ok (t, s)) := by
  constructor
  · rintro (⟨e, he⟩ | ⟨ts, hts, hmem⟩)
    · simp [httpStatusOf, get_table_schema_endpoint, get_table_schema, he]
    · obtain ⟨e, he⟩ := hAbsent ts hts hmem
      simp [httpStatusOf, get_table_schema_endpoint, get_table_schema, he]
  · intro s h
    simp [get_table_schema_endpoint, get_table_schema, h]

/-- Witness for C6: looking up a table the database does not know returns
HTTP status 404. -/
theorem schema_endpoint_unknown_404_witness :
    httpStatusOf (get_table_schema_endpoint oneTableDb "users") = some 404 :=
  (schema_endpoint_unknown_404 oneTableDb "users"
      (fun _ _ _ => ⟨"table_names not found in database", rfl⟩)).1
    (Or.inl ⟨"table_names not found in database", rfl⟩)

/-- C7: the answer-synthesis step builds its model prompt from exactly the
state's question, generated SQL query and serialized result: each of the
three appears verbatim in the prompt handed to the model. -/
theorem answer_synthesis_prompt_wiring (question query result answer : String) :
    strContains (answerPrompt ⟨question, query, result, answer⟩) question ∧
    strContains (answerPrompt ⟨question, query, result, answer⟩) query ∧
    strContains (answerPrompt ⟨question, query, result, answer⟩) result := by
  refine ⟨⟨("Given the following user question, corresponding SQL query, " ++
        "and SQL result, answer the user question.\n\n" ++ "Question: ").data,
      ("\n" ++ "SQL Query: " ++ query ++ "\n" ++ "SQL Result: " ++ result).data, ?_⟩,
    ⟨("Given the following user question, corresponding SQL query, " ++
        "and SQL result, answer the user question.\n\n" ++ "Question: " ++ question ++
        "\n" ++ "SQL Query: ").data,
      ("\n" ++ "SQL Result: " ++ result).data, ?_⟩,
    ⟨("Given the following user question, corresponding SQL query, " ++
        "and SQL result, answer the user question.\n\n" ++ "Question: " ++ question ++
        "\n" ++ "SQL Query: " ++ query ++ "\n" ++ "SQL Result: ").data,
      ([] : List Char), ?_⟩⟩ <;>
    simp [answerPrompt, String.data_append, List.append_assoc]

/-- C8: each pipeline node's returned dict mentions only its own field, so
merging it updates exactly that field of the state: `_write_query` sets
only `query`, `_execute_query` only `result`, `_generate_answer` only
`answer`; every other field is left unchanged. -/
theorem pipeline_steps_frame (db : Db) (llm : Llm) (topK : Nat) (s : State) :
    (∀ ev u, writeQueryStep db llm topK s = (ev, .ok u) →
        u.question = none ∧ u.result = none ∧ u.answer = none ∧
        (applyUpdate s u).question = s.question ∧
        (applyUpdate s u).result = s.result ∧
        (applyUpdate s u).answer = s.answer) ∧
    (∀ ev u, executeQueryStep db s = (ev, .ok u) →
        u.question = none ∧ u.query = none ∧ u.answer = none ∧
        (applyUpdate s u).question = s.question ∧
        (applyUpdate s u).query = s.query ∧
        (applyUpdate s u).answer = s.answer) ∧
    (∀ ev u, generateAnswerStep llm s = (ev, .ok u) →
        u.question = none ∧ u.query = none ∧ u.result = none ∧
        (applyUpdate s u).question = s.question ∧
        (applyUpdate s u).query = s.query ∧
        (applyUpdate s u).result = s.result) := by
  refine ⟨?_, ?_, ?_⟩
  · intro ev u h
    unfold writeQueryStep at h
    rcases h1 : llm.structuredQuery (queryGenPrompt db.dialect topK db.allTableInfo s.question) with e | q <;>
      simp [h1] at h
    obtain ⟨-, hu⟩ := h
    subst hu
    simp [applyUpdate]
  · intro ev u h
    unfold executeQueryStep at h
    rcases h1 : db.executeTool s.query with e | r <;> simp [h1] at h
    obtain ⟨-, hu⟩ := h
    subst hu
    simp [applyUpdate]
  · intro ev u h
    unfold generateAnswerStep at h
    rcases h1 : llm.invoke (answerPrompt s) with e | a <;> simp [h1] at h
    obtain ⟨-, hu⟩ := h
    subst hu
    simp [applyUpdate]

/-- Witness for C8: the concrete `_write_query` update touches neither the
question nor the result nor the answer field. -/
theorem pipeline_steps_frame_witness :
    stubUpdate.question = none ∧ stubUpdate.result = none ∧ stubUpdate.answer = none ∧
    (applyUpdate stubState stubUpdate).question = stubState.question ∧
    (applyUpdate stubState stubUpdate).result = stubState.result ∧
    (applyUpdate stubState stubUpdate).answer = stubState.answer :=
  (pipeline_steps_frame stubDb stubLlm 10 stubState).1 _ stubUpdate rfl

/-- C9: in approval mode with auto-approve disabled the execution step is
never invoked — the call trace contains no database-execution event for
any question and any model/database behaviour. -/
theorem approval_no_auto_never_executes (pyHash : String → Int) (db : Db) (llm : Llm)
    (topK : Nat) (question : String) :
    ((askWithApproval pyHash db llm topK question false).1.all isNotDbExecute) = true := by
  unfold askWithApproval
  rcases h : llm.structuredQuery (queryGenPrompt db.dialect topK db.allTableInfo question)
    with e | sql <;>
    simp [writeQueryStep, h, isNotDbExecute]

/-- C10: `test_connection` is a total function of the database handle's
behaviour: on success it reports `connected` with the dialect, version
and table list, and whenever either underlying call raises it reports a
failure carrying the exception text. -/
theorem test_connection_never_raises (db : Db) :
    (∀ e, db.run "SELECT version();" = .error e → test_connection db = .failed e) ∧
    (∀ v e, db.run "SELECT version();" = .ok v → db.getUsableTableNames () = .error e →
        test_connection db = .failed e) ∧
    (∀ v ts, db.run "SELECT version();" = .ok v → db.getUsableTableNames () = .ok ts →
        test_connection db = .connected db.dialect v ts) := by
  refine ⟨?_, ?_, ?_⟩ <;> intros <;> simp [test_connection, get_available_tables, *]

/-- Witness for C10: the all-successful stub database reports a connected
status with dialect, version and tables. -/
theorem test_connection_never_raises_witness :
    stubDb.run "SELECT version();" = Except.ok "PostgreSQL 16.0" ∧
    stubDb.getUsableTableNames () = Except.ok ["orders"] ∧
    test_connection stubDb =
      ConnectionStatus.connected "postgresql" "PostgreSQL 16.0" ["orders"] :=
  ⟨rfl, rfl,
    (test_connection_never_raises stubDb).2.2 "PostgreSQL 16.0" ["orders"] rfl rfl⟩

end DebAssistant
